import Mathlib

/-!
Shallow embedding of the server coordinator of Tendis
(`src/tendisplus/server/server_entry.cpp`) and proofs of the spec's claims
about it.  Machine integers (`uint64_t`) are modelled as `Nat` with explicit
reduction modulo `2 ^ 64` where C overflow semantics matter; fallible calls
on external collaborators (storage engine, catalog writes, replication
manager) are modelled by passing their result (`Status`) as a parameter.
-/

namespace tendisplus

/-- Error kinds of the codebase's `Status` (see §7 of the spec and the error
codes used in `server_entry.cpp`). -/
inductive ErrorCodes where
  | ERR_OK
  | ERR_NOTFOUND
  | ERR_INTERNAL
  | ERR_BUSY
  | ERR_PARSEPKT
  | ERR_AUTH
  | ERR_NETWORK
  | ERR_COMMIT_RETRY
deriving DecidableEq, Repr

/-- The `Status` value threaded through the coordinator: an error code plus a
human-readable message, mirroring `tendisplus::Status`. -/
structure Status where
  code : ErrorCodes
  msg : String
deriving DecidableEq, Repr

/-- `Status::ok()`: the status carries `ERR_OK`. -/
def Status.isOk (s : Status) : Bool :=
  s.code = ErrorCodes.ERR_OK

/-- The `OK` status `{ErrorCodes::ERR_OK, ""}` returned on the success paths of
`server_entry.cpp`. -/
def Status.OK : Status :=
  ⟨ErrorCodes.ERR_OK, ""⟩

/-- Rendering of a status for error replies (`Status::toString`); the exact
text lives outside `src/`, only its dependence on the status matters here. -/
def Status.toStr (s : Status) : String :=
  s.msg

/-- `STATS_METRIC_SAMPLES`: size of the per-metric sample ring. -/
def STATS_METRIC_SAMPLES : Nat := 16

/-- `2 ^ 64`, the modulus of `uint64_t` arithmetic. -/
def U64 : Nat := 2 ^ 64

/-- `uint64_t` subtraction `a - b` (wrap-around modulo `2 ^ 64`), for operands
already reduced below `2 ^ 64`. -/
def u64sub (a b : Nat) : Nat :=
  (a + U64 - b) % U64

/-- One entry of `ServerStat::instMetric`: the bookkeeping of
`trackInstantaneousMetric` for a single metric (`lastSampleTime` in ms,
`lastSampleCount`, ring index `idx`, and the 16 samples). -/
structure InstMetric where
  lastSampleTime : Nat
  lastSampleCount : Nat
  idx : Nat
  samples : List Nat
deriving DecidableEq, Repr

/-- `ServerStat::trackInstantaneousMetric` on one metric's state.  The two
`msSinceEpoch()` reads of the source are modelled by the single parameter
`now`; `current_reading` is the live counter value.  All arithmetic is
`uint64_t` arithmetic. -/
def trackInstantaneousMetric (now reading : Nat) (m : InstMetric) : InstMetric :=
  let t := u64sub now m.lastSampleTime
  let ops := u64sub reading m.lastSampleCount
  let ops_sec := if t > 0 then ops * 1000 % U64 / t else 0
  { lastSampleTime := now
    lastSampleCount := reading
    idx := (m.idx + 1) % STATS_METRIC_SAMPLES
    samples := m.samples.set m.idx ops_sec }

/-- `ServerStat::getInstantaneousMetric` on one metric's state: the mean of
the samples (the loop sums the 16 ring entries). -/
def getInstantaneousMetric (m : InstMetric) : Nat :=
  m.samples.sum / STATS_METRIC_SAMPLES

lemma u64sub_eq_sub {a b : Nat} (hba : b ≤ a) (ha : a < U64) :
    u64sub a b = a - b := by
  unfold u64sub
  have h1 : a + U64 - b = (a - b) + U64 := by omega
  rw [h1, Nat.add_mod_right, Nat.mod_eq_of_lt (by omega)]

/-- C4: `trackInstantaneousMetric(metric, reading)` stores `ops * 1000 / t`
(`0` when `t = 0`) into the sample at the current ring index, where
`ops = reading - lastSampleCount` and `t = now - lastSampleTime` (ms);
it then advances the index modulo 16 and updates `lastSampleTime` and
`lastSampleCount`; `getInstantaneousMetric` returns the integer quotient of
the sum of the 16 samples by 16.  The no-wrap hypotheses state that the
clock and the counter are monotone and that `ops * 1000` fits in `uint64_t`. -/
theorem trackInstantaneousMetric_spec (now reading : Nat) (m : InstMetric)
    (htime : m.lastSampleTime ≤ now) (hnow : now < U64)
    (hcount : m.lastSampleCount ≤ reading) (hreading : reading < U64)
    (hmul : (reading - m.lastSampleCount) * 1000 < U64) :
    (trackInstantaneousMetric now reading m).samples =
      m.samples.set m.idx
        (if now - m.lastSampleTime = 0 then 0
         else (reading - m.lastSampleCount) * 1000 / (now - m.lastSampleTime)) ∧
    (trackInstantaneousMetric now reading m).idx = (m.idx + 1) % 16 ∧
    (trackInstantaneousMetric now reading m).lastSampleTime = now ∧
    (trackInstantaneousMetric now reading m).lastSampleCount = reading ∧
    getInstantaneousMetric m = m.samples.sum / 16 := by
  have ht : u64sub now m.lastSampleTime = now - m.lastSampleTime :=
    u64sub_eq_sub htime hnow
  have hc : u64sub reading m.lastSampleCount = reading - m.lastSampleCount :=
    u64sub_eq_sub hcount hreading
  refine ⟨?_, rfl, rfl, rfl, rfl⟩
  unfold trackInstantaneousMetric
  simp only [ht, hc, Nat.mod_eq_of_lt hmul]
  rcases Nat.eq_zero_or_pos (now - m.lastSampleTime) with h0 | hpos
  · simp [h0]
  · have hne : ¬ now - m.lastSampleTime = 0 := by omega
    simp [hpos, hne]

/-- Witness for C4 at a concrete metric state: reading 500 over 100 ms with
previous count 100 yields sample `400 * 1000 / 100 = 4000` at index 3. -/
theorem trackInstantaneousMetric_spec_witness :
    (trackInstantaneousMetric 1100 500
        ⟨1000, 100, 3, List.replicate 16 0⟩).samples =
      (List.replicate 16 0).set 3 4000 ∧
    (trackInstantaneousMetric 1100 500
        ⟨1000, 100, 3, List.replicate 16 0⟩).idx = 4 := by
  have h := trackInstantaneousMetric_spec 1100 500
      ⟨1000, 100, 3, List.replicate 16 0⟩
      (by decide) (by norm_num [U64]) (by decide) (by norm_num [U64])
      (by norm_num [U64])
  exact ⟨h.1.trans (by decide), h.2.1.trans (by decide)⟩

/-- Snapshot of the counters read by `ServerEntry::getStatInfo`: the network
matrix (`connCreated`, `connReleased`, `stickyPackets`, `invalidPackets`),
the request matrix (`processed`, `sendPacketCost`, `processCost`), the pool
matrix (`queueTime`, `executeTime`, `inQueue`, `executed` — here
`poolExecuted`), and the `ServerStat` counters. -/
structure StatSnapshot where
  connCreated : Nat
  connReleased : Nat
  processed : Nat
  queueTime : Nat
  executeTime : Nat
  sendPacketCost : Nat
  processCost : Nat
  inQueue : Nat
  poolExecuted : Nat
  stickyPackets : Nat
  invalidPackets : Nat
  netInputBytes : Nat
  netOutputBytes : Nat
  rejectedConn : Nat
  syncFull : Nat
  syncPartialOk : Nat
  syncPartialErr : Nat
  keyspaceHits : Nat
  keyspaceMisses : Nat
  keyspaceIncorrectEp : Nat
deriving DecidableEq, Repr

/-- `ServerEntry::getStatInfo` as the ordered list of its integer
`label:value` lines.  `opsPerSec`, `instInput` and `instOutput` stand for the
three `getInstantaneousMetric` reads; the two `instantaneous_*_kbps` lines,
which divide by `1024` in `float`, are the only lines left out of the model.
`executed` starts as `processed` and is replaced by `1` when zero before the
average lines, exactly as in the source. -/
def getStatInfo (s : StatSnapshot) (opsPerSec : Nat) : List (String × Nat) :=
  let executed := s.processed
  let allCost := s.executeTime + s.queueTime + s.sendPacketCost
  let executed1 := if executed = 0 then 1 else executed
  [("total_connections_received", s.connCreated),
   ("total_connections_released", s.connReleased),
   ("total_commands_processed", s.processed),
   ("instantaneous_ops_per_sec", opsPerSec),
   ("total_commands_cost(ns)", allCost),
   ("total_commands_workpool_queue_cost(ns)", s.queueTime),
   ("total_commands_workpool_execute_cost(ns)", s.executeTime),
   ("total_commands_send_packet_cost(ns)", s.sendPacketCost),
   ("total_commands_execute_cost(ns)", s.processCost),
   ("avg_commands_cost(ns)", allCost / executed1),
   ("avg_commands_workpool_queue_cost(ns)", s.queueTime / executed1),
   ("avg_commands_workpool_execute_cost(ns)", s.executeTime / executed1),
   ("avg_commands_send_packet_cost(ns)", s.sendPacketCost / executed1),
   ("avg_commands_execute_cost(ns)", s.processCost / executed1),
   ("commands_in_queue", s.inQueue),
   ("commands_executed_in_workpool", s.poolExecuted),
   ("total_stricky_packets", s.stickyPackets),
   ("total_invalid_packets", s.invalidPackets),
   ("total_net_input_bytes", s.netInputBytes),
   ("total_net_output_bytes", s.netOutputBytes),
   ("rejected_connections", s.rejectedConn),
   ("sync_full", s.syncFull),
   ("sync_partial_ok", s.syncPartialOk),
   ("sync_partial_err", s.syncPartialErr),
   ("keyspace_hits", s.keyspaceHits),
   ("keyspace_misses", s.keyspaceMisses),
   ("keyspace_wrong_versionep", s.keyspaceIncorrectEp)]

/-- C10: every `avg_commands_*_cost` line of `getStatInfo` divides by
`max(total_commands_processed, 1)`: the divisor is never zero, and when zero
commands have been processed each average line carries the corresponding
total. -/
theorem getStatInfo_avg_divisor (s : StatSnapshot) (opsPerSec : Nat) :
    ((getStatInfo s opsPerSec)[9]? =
      some ("avg_commands_cost(ns)",
        (s.executeTime + s.queueTime + s.sendPacketCost) / max s.processed 1)) ∧
    ((getStatInfo s opsPerSec)[10]? =
      some ("avg_commands_workpool_queue_cost(ns)", s.queueTime / max s.processed 1)) ∧
    ((getStatInfo s opsPerSec)[11]? =
      some ("avg_commands_workpool_execute_cost(ns)", s.executeTime / max s.processed 1)) ∧
    ((getStatInfo s opsPerSec)[12]? =
      some ("avg_commands_send_packet_cost(ns)", s.sendPacketCost / max s.processed 1)) ∧
    ((getStatInfo s opsPerSec)[13]? =
      some ("avg_commands_execute_cost(ns)", s.processCost / max s.processed 1)) ∧
    (s.processed = 0 →
      ((getStatInfo s opsPerSec)[9]? =
        some ("avg_commands_cost(ns)", s.executeTime + s.queueTime + s.sendPacketCost)) ∧
      ((getStatInfo s opsPerSec)[10]? =
        some ("avg_commands_workpool_queue_cost(ns)", s.queueTime)) ∧
      ((getStatInfo s opsPerSec)[11]? =
        some ("avg_commands_workpool_execute_cost(ns)", s.executeTime)) ∧
      ((getStatInfo s opsPerSec)[12]? =
        some ("avg_commands_send_packet_cost(ns)", s.sendPacketCost)) ∧
      ((getStatInfo s opsPerSec)[13]? =
        some ("avg_commands_execute_cost(ns)", s.processCost))) := by
  have hd : (if s.processed = 0 then 1 else s.processed) = max s.processed 1 := by
    rcases Nat.eq_zero_or_pos s.processed with h | h
    · simp [h]
    · have : ¬ s.processed = 0 := by omega
      simp [this]
      omega
  refine ⟨?_, ?_, ?_, ?_, ?_, fun h0 => ?_⟩
  · simp [getStatInfo, hd]
  · simp [getStatInfo, hd]
  · simp [getStatInfo, hd]
  · simp [getStatInfo, hd]
  · simp [getStatInfo, hd]
  · simp [getStatInfo, h0, Nat.div_one]

/-- Witness for C10 at a concrete snapshot with zero processed commands:
the average-cost line equals the total-cost line's value. -/
theorem getStatInfo_avg_divisor_witness :
    (getStatInfo ⟨1, 1, 0, 7, 8, 9, 10, 0, 0, 0, 0, 0, 0, 0, 0, 0, 0, 0, 0, 0⟩ 0)[9]? =
      some ("avg_commands_cost(ns)", 8 + 7 + 9) :=
  ((getStatInfo_avg_divisor ⟨1, 1, 0, 7, 8, 9, 10, 0, 0, 0, 0, 0, 0, 0, 0, 0, 0, 0, 0, 0⟩ 0).2.2.2.2.2 rfl).1

/-- The name and the worker-thread count a pool is started with:
`WorkerPool("req-exec-" + i, _poolMatrix)` followed by `startup(1)`. -/
structure WorkerPoolSpec where
  name : String
  workerThreads : Nat
deriving DecidableEq, Repr

/-- The worker-pool construction slice of `ServerEntry::startup`
(`server_entry.cpp` lines 282-301): detect `cpuNum`, fail with `ERR_INTERNAL`
when it is zero, compute `threadnum = max(4, cpuNum / 2)` overridden by
`cfg->executorThreadNum` when non-zero, and start `threadnum` pools named
`req-exec-<i>`, each with one worker thread. -/
def buildExecutorList (cpuNum executorThreadNum : Nat) :
    Except Status (List WorkerPoolSpec) :=
  if cpuNum = 0 then
    Except.error ⟨ErrorCodes.ERR_INTERNAL, "cpu num cannot be detected"⟩
  else
    let threadnum := max 4 (cpuNum / 2)
    let threadnum := if executorThreadNum ≠ 0 then executorThreadNum else threadnum
    Except.ok ((List.range threadnum).map fun i =>
      ⟨"req-exec-" ++ toString i, 1⟩)

/-- C8: startup builds `executorThreadNum` worker pools when that config is
non-zero and `max(4, hardware_concurrency / 2)` otherwise; it fails with an
`INTERNAL` error whenever `hardware_concurrency` is zero; each pool is
started with exactly one worker thread and pool `i` is named `req-exec-<i>`. -/
theorem buildExecutorList_spec (cpuNum executorThreadNum : Nat) :
    (cpuNum = 0 →
      buildExecutorList cpuNum executorThreadNum =
        Except.error ⟨ErrorCodes.ERR_INTERNAL, "cpu num cannot be detected"⟩) ∧
    (cpuNum ≠ 0 → ∃ pools,
      buildExecutorList cpuNum executorThreadNum = Except.ok pools ∧
      pools.length =
        (if executorThreadNum ≠ 0 then executorThreadNum
         else max 4 (cpuNum / 2)) ∧
      ∀ i, (h : i < pools.length) →
        (pools.get ⟨i, h⟩).name = "req-exec-" ++ toString i ∧
        (pools.get ⟨i, h⟩).workerThreads = 1) := by
  constructor
  · intro h0
    simp [buildExecutorList, h0]
  · intro hne
    refine ⟨(List.range (if executorThreadNum ≠ 0 then executorThreadNum
        else max 4 (cpuNum / 2))).map (fun i => ⟨"req-exec-" ++ toString i, 1⟩),
      ?_, ?_, ?_⟩
    · simp [buildExecutorList, hne]
    · simp
    · intro i h
      simp

/-- Witness for C8: zero hardware concurrency fails with `ERR_INTERNAL`, and
8 cpus with `executorThreadNum = 0` yield the four single-worker pools
`req-exec-0` … `req-exec-3`. -/
theorem buildExecutorList_spec_witness :
    buildExecutorList 0 5 =
      Except.error ⟨ErrorCodes.ERR_INTERNAL, "cpu num cannot be detected"⟩ ∧
    buildExecutorList 8 0 =
      Except.ok [⟨"req-exec-0", 1⟩, ⟨"req-exec-1", 1⟩,
                 ⟨"req-exec-2", 1⟩, ⟨"req-exec-3", 1⟩] :=
  ⟨(buildExecutorList_spec 0 5).1 rfl, by rfl⟩

/-- `KVStore::StoreMode` (the modes appearing in `server_entry.cpp`). -/
inductive StoreMode where
  | READ_WRITE
  | REPLICATE_ONLY
  | STORE_NONE
deriving DecidableEq, Repr

/-- `StoreMainMeta`: the catalog record `{storeId, storeMode}`. -/
structure StoreMainMeta where
  storeId : Nat
  storeMode : StoreMode
deriving DecidableEq, Repr

/-- The catalog's `StoreMainMeta` table: an association of store ids to
persisted modes (first entry with a given id wins, as in a map). -/
def Catalog := List (Nat × StoreMode)

/-- `Catalog::getStoreMainMeta`: the persisted record for a store id, or
`none` when absent (`ERR_NOTFOUND` at the call sites). -/
def getStoreMainMeta (c : Catalog) (sid : Nat) : Option StoreMainMeta :=
  match c.lookup sid with
  | some m => some ⟨sid, m⟩
  | none => none

/-- `Catalog::setStoreMainMeta` on the success path of the underlying write:
replace (or create) the record for `m.storeId`. -/
def setStoreMainMeta (c : Catalog) (m : StoreMainMeta) : Catalog :=
  (m.storeId, m.storeMode) :: List.eraseP (fun p => p.1 == m.storeId) c

/-- The slice of a `Store` (`KVStore`) observed by the coordinator's store
lifecycle operations: its string id, mode, and the `isEmpty` / `isPaused`
query results. -/
structure KVStoreState where
  dbIdStr : String
  mode : StoreMode
  isEmpty : Bool
  isPaused : Bool
deriving DecidableEq, Repr

/-- `ServerEntry::setStoreMode(store, mode)`.  External outcomes are passed
in: `setModeRes` is the status of `store->setMode(mode)` (a `LOG(FATAL)`
aborts on failure; the model returns the status with nothing else changed, as
no catalog write has happened), `parsedId` the result of
`tendisplus::stoul(store->dbId())`, and `setMetaRes` the status of the
catalog write.  The result is `none` when the source would call `.value()` on
a failed `getStoreMainMeta` expected (process abort), and otherwise the
returned status together with the resulting store and catalog. -/
def setStoreMode (store : KVStoreState) (mode : StoreMode)
    (setModeRes : Status) (parsedId : Option Nat) (setMetaRes : Status)
    (c : Catalog) : Option (Status × KVStoreState × Catalog) :=
  if store.mode = mode then
    some (Status.OK, store, c)
  else if ¬ setModeRes.isOk then
    some (setModeRes, store, c)
  else
    let store' := { store with mode := mode }
    match parsedId with
    | none => some (⟨ErrorCodes.ERR_PARSEPKT, "invalid store id"⟩, store', c)
    | some sid =>
      match getStoreMainMeta c sid with
      | none => none
      | some meta =>
        if setMetaRes.isOk then
          some (setMetaRes, store', setStoreMainMeta c { meta with storeMode := mode })
        else
          some (setMetaRes, store', c)

/-- C9: `setStoreMode(store, mode)` returns `OK` and changes neither the
store nor the catalog when the store already has `mode`; otherwise it applies
`store->setMode(mode)` first, leaves the catalog untouched whenever that call
fails, and on its success persists the new mode into the catalog's
`StoreMainMeta` so that a subsequent catalog read for that store id yields
`mode`. -/
theorem setStoreMode_spec (store : KVStoreState) (mode : StoreMode)
    (setModeRes : Status) (sid : Nat) (setMetaRes : Status) (c : Catalog) :
    (store.mode = mode →
      setStoreMode store mode setModeRes (some sid) setMetaRes c =
        some (Status.OK, store, c)) ∧
    (store.mode ≠ mode → ¬ setModeRes.isOk →
      setStoreMode store mode setModeRes (some sid) setMetaRes c =
        some (setModeRes, store, c)) ∧
    (store.mode ≠ mode → setModeRes.isOk → setMetaRes.isOk →
      ∀ m, getStoreMainMeta c sid = some m →
      ∃ c', setStoreMode store mode setModeRes (some sid) setMetaRes c =
          some (setMetaRes, { store with mode := mode }, c') ∧
        getStoreMainMeta c' sid = some ⟨sid, mode⟩) := by
  refine ⟨fun heq => ?_, fun hne hbad => ?_, fun hne hok hmok m hm => ?_⟩
  · simp [setStoreMode, heq]
  · simp [setStoreMode, hne, hbad]
  · refine ⟨setStoreMainMeta c { m with storeMode := mode }, ?_, ?_⟩
    · simp [setStoreMode, hne, hok, hm, hmok]
    · have hsid : m.storeId = sid := by
        unfold getStoreMainMeta at hm
        cases hlk : List.lookup sid c with
        | none => rw [hlk] at hm; exact absurd hm (by simp)
        | some v => rw [hlk] at hm; cases hm; rfl
      simp [getStoreMainMeta, setStoreMainMeta, hsid, List.lookup]

/-- Witness for C9 at concrete inputs: switching store `"1"` from
`READ_WRITE` to `REPLICATE_ONLY` against a one-entry catalog persists the new
mode, and a no-op call returns `OK` unchanged. -/
theorem setStoreMode_spec_witness :
    (setStoreMode ⟨"1", StoreMode.READ_WRITE, true, true⟩ StoreMode.READ_WRITE
        Status.OK (some 1) Status.OK [(1, StoreMode.READ_WRITE)] =
      some (Status.OK, ⟨"1", StoreMode.READ_WRITE, true, true⟩,
        [(1, StoreMode.READ_WRITE)])) ∧
    ∃ c', setStoreMode ⟨"1", StoreMode.READ_WRITE, true, true⟩
        StoreMode.REPLICATE_ONLY Status.OK (some 1) Status.OK
        [(1, StoreMode.READ_WRITE)] =
        some (Status.OK, ⟨"1", StoreMode.REPLICATE_ONLY, true, true⟩, c') ∧
      getStoreMainMeta c' 1 = some ⟨1, StoreMode.REPLICATE_ONLY⟩ :=
  ⟨(setStoreMode_spec ⟨"1", StoreMode.READ_WRITE, true, true⟩
      StoreMode.READ_WRITE Status.OK 1 Status.OK
      [(1, StoreMode.READ_WRITE)]).1 rfl,
   (setStoreMode_spec ⟨"1", StoreMode.READ_WRITE, true, true⟩
      StoreMode.REPLICATE_ONLY Status.OK 1 Status.OK
      [(1, StoreMode.READ_WRITE)]).2.2 (by decide) rfl rfl
      ⟨1, StoreMode.READ_WRITE⟩ rfl⟩

/-- The externally visible calls `destroyStore` makes after its checks, in
program order: the successful catalog write of `STORE_NONE`, the
`store->destroy()` call, and the two `stopStore(storeId)` calls. -/
inductive DEvent where
  | setMetaNone (sid : Nat)
  | destroyCall (sid : Nat)
  | replStopCall (sid : Nat)
  | idxStopCall (sid : Nat)
deriving DecidableEq, Repr

/-- `ServerEntry::destroyStore(sess, storeId, isForce)`.  External outcomes
are parameters: `lockRes` is the status of `getDb(sess, storeId, LOCK_X)`
(the exclusive lock), `setMetaRes` of the catalog write, `destroyRes` of
`store->destroy()`, and `replStopRes` / `idxStopRes` of the managers'
`stopStore`.  The result is the returned status, the resulting catalog, and
the ordered list of external calls made. -/
def destroyStore (lockRes : Status) (store : KVStoreState) (storeId : Nat)
    (isForce : Bool) (setMetaRes destroyRes replStopRes idxStopRes : Status)
    (c : Catalog) : Status × Catalog × List DEvent :=
  if lockRes.isOk = false then (lockRes, c, [])
  else if isForce = false ∧ store.isEmpty = false then
    (⟨ErrorCodes.ERR_INTERNAL, "try to close an unempty store"⟩, c, [])
  else if store.isPaused = false then
    (⟨ErrorCodes.ERR_INTERNAL, "please pausestore first before destroystore"⟩, c, [])
  else
    match getStoreMainMeta c storeId with
    | none => (⟨ErrorCodes.ERR_NOTFOUND, "store main meta not found"⟩, c, [])
    | some meta =>
      if setMetaRes.isOk = false then (setMetaRes, c, [])
      else
        let c' := setStoreMainMeta c { meta with storeMode := StoreMode.STORE_NONE }
        if destroyRes.isOk = false then
          (destroyRes, c', [DEvent.setMetaNone storeId, DEvent.destroyCall storeId])
        else if replStopRes.isOk = false then
          (replStopRes, c',
            [DEvent.setMetaNone storeId, DEvent.destroyCall storeId,
             DEvent.replStopCall storeId])
        else
          (idxStopRes, c',
            [DEvent.setMetaNone storeId, DEvent.destroyCall storeId,
             DEvent.replStopCall storeId, DEvent.idxStopCall storeId])

/-- C2: `destroyStore(storeId, force)` requires the store to be paused and,
when `force` is false, additionally to be empty, returning
`INTERNAL "try to close an unempty store"` on a non-empty non-force call;
whenever a precondition fails or the catalog write of `STORE_NONE` fails,
`store->destroy()` is never called and the catalog is untouched; on the
success path the catalog's `StoreMainMeta` is set to `STORE_NONE` strictly
before `store->destroy()`, after which the replication and index managers'
`stopStore(storeId)` run. -/
theorem destroyStore_spec (lockRes : Status) (store : KVStoreState)
    (storeId : Nat) (isForce : Bool)
    (setMetaRes destroyRes replStopRes idxStopRes : Status) (c : Catalog) :
    (lockRes.isOk = false →
      destroyStore lockRes store storeId isForce setMetaRes destroyRes
        replStopRes idxStopRes c = (lockRes, c, [])) ∧
    (lockRes.isOk = true → isForce = false → store.isEmpty = false →
      destroyStore lockRes store storeId isForce setMetaRes destroyRes
        replStopRes idxStopRes c =
        (⟨ErrorCodes.ERR_INTERNAL, "try to close an unempty store"⟩, c, [])) ∧
    ((lockRes.isOk = false ∨ (isForce = false ∧ store.isEmpty = false) ∨
        store.isPaused = false ∨ getStoreMainMeta c storeId = none ∨
        setMetaRes.isOk = false) →
      (destroyStore lockRes store storeId isForce setMetaRes destroyRes
        replStopRes idxStopRes c).2.1 = c ∧
      (destroyStore lockRes store storeId isForce setMetaRes destroyRes
        replStopRes idxStopRes c).2.2 = []) ∧
    (lockRes.isOk = true → (isForce = true ∨ store.isEmpty = true) →
      store.isPaused = true →
      ∀ meta, getStoreMainMeta c storeId = some meta → setMetaRes.isOk = true →
      ∃ tail,
        (destroyStore lockRes store storeId isForce setMetaRes destroyRes
          replStopRes idxStopRes c).2.2 =
          DEvent.setMetaNone storeId :: DEvent.destroyCall storeId :: tail ∧
        getStoreMainMeta
          (destroyStore lockRes store storeId isForce setMetaRes destroyRes
            replStopRes idxStopRes c).2.1 storeId =
          some ⟨storeId, StoreMode.STORE_NONE⟩ ∧
        (destroyRes.isOk = true → replStopRes.isOk = true →
          (destroyStore lockRes store storeId isForce setMetaRes destroyRes
            replStopRes idxStopRes c).2.2 =
            [DEvent.setMetaNone storeId, DEvent.destroyCall storeId,
             DEvent.replStopCall storeId, DEvent.idxStopCall storeId] ∧
          (destroyStore lockRes store storeId isForce setMetaRes destroyRes
            replStopRes idxStopRes c).1 = idxStopRes)) := by
  refine ⟨fun hl => ?_, fun hl hf he => ?_, fun hpre => ?_, ?_⟩
  · simp [destroyStore, hl]
  · simp [destroyStore, hl, hf, he]
  · unfold destroyStore
    by_cases hl : lockRes.isOk = false
    · simp [hl]
    rcases hpre with h | ⟨hf, he⟩ | hp | hm | hw
    · exact absurd h hl
    · simp [hl, hf, he]
    · by_cases hfe : isForce = false ∧ store.isEmpty = false
      · simp [hl, hfe]
      · simp [hl, hfe, hp]
    · by_cases hfe : isForce = false ∧ store.isEmpty = false
      · simp [hl, hfe]
      · by_cases hp : store.isPaused = false
        · simp [hl, hfe, hp]
        · simp [hl, hfe, hp, hm]
    · by_cases hfe : isForce = false ∧ store.isEmpty = false
      · simp [hl, hfe]
      · by_cases hp : store.isPaused = false
        · simp [hl, hfe, hp]
        · cases hm : getStoreMainMeta c storeId with
          | none => simp [hl, hfe, hp, hm]
          | some meta => simp [hl, hfe, hp, hm, hw]
  · intro hl hfe hp meta hm hw
    have hfe' : ¬ (isForce = false ∧ store.isEmpty = false) := by
      rcases hfe with h | h <;> simp [h]
    have hsid : meta.storeId = storeId := by
      unfold getStoreMainMeta at hm
      cases hlk : List.lookup storeId c with
      | none => rw [hlk] at hm; exact absurd hm (by simp)
      | some v => rw [hlk] at hm; cases hm; rfl
    have hread : getStoreMainMeta
        (setStoreMainMeta c { meta with storeMode := StoreMode.STORE_NONE })
        storeId = some ⟨storeId, StoreMode.STORE_NONE⟩ := by
      simp [getStoreMainMeta, setStoreMainMeta, hsid, List.lookup]
    by_cases hd : destroyRes.isOk = false
    · refine ⟨[], ?_, ?_, ?_⟩
      · simp [destroyStore, hl, hfe', hp, hm, hw, hd]
      · simp [destroyStore, hl, hfe', hp, hm, hw, hd, hread]
      · intro hd'; rw [hd'] at hd; exact Bool.noConfusion hd
    by_cases hr : replStopRes.isOk = false
    · refine ⟨[DEvent.replStopCall storeId], ?_, ?_, ?_⟩
      · simp [destroyStore, hl, hfe', hp, hm, hw, hd, hr]
      · simp [destroyStore, hl, hfe', hp, hm, hw, hd, hr, hread]
      · intro _ hr'; rw [hr'] at hr; exact Bool.noConfusion hr
    · refine ⟨[DEvent.replStopCall storeId, DEvent.idxStopCall storeId], ?_, ?_, ?_⟩
      · simp [destroyStore, hl, hfe', hp, hm, hw, hd, hr]
      · simp [destroyStore, hl, hfe', hp, hm, hw, hd, hr, hread]
      · intro _ _
        constructor
        · simp [destroyStore, hl, hfe', hp, hm, hw, hd, hr]
        · simp [destroyStore, hl, hfe', hp, hm, hw, hd, hr]

/-- Witness for C2 at concrete inputs: a non-empty non-force call fails with
the unempty-store error, and a successful destroy of the paused empty store 2
persists `STORE_NONE` before destroying and then stops both managers. -/
theorem destroyStore_spec_witness :
    (destroyStore Status.OK ⟨"2", StoreMode.READ_WRITE, false, true⟩ 2 false
        Status.OK Status.OK Status.OK Status.OK [(2, StoreMode.READ_WRITE)] =
      (⟨ErrorCodes.ERR_INTERNAL, "try to close an unempty store"⟩,
        [(2, StoreMode.READ_WRITE)], [])) ∧
    ∃ tail,
      (destroyStore Status.OK ⟨"2", StoreMode.READ_WRITE, true, true⟩ 2 false
          Status.OK Status.OK Status.OK Status.OK
          [(2, StoreMode.READ_WRITE)]).2.2 =
        DEvent.setMetaNone 2 :: DEvent.destroyCall 2 :: tail :=
  ⟨(destroyStore_spec Status.OK ⟨"2", StoreMode.READ_WRITE, false, true⟩ 2
      false Status.OK Status.OK Status.OK Status.OK
      [(2, StoreMode.READ_WRITE)]).2.1 rfl rfl rfl,
   ((destroyStore_spec Status.OK ⟨"2", StoreMode.READ_WRITE, true, true⟩ 2
      false Status.OK Status.OK Status.OK Status.OK
      [(2, StoreMode.READ_WRITE)]).2.2.2 rfl (Or.inr rfl) rfl
      ⟨2, StoreMode.READ_WRITE⟩ rfl rfl).imp
    fun _ h => h.1⟩

/-- The issuing session as seen by `processRequest`: id, current database id
(`SessionCtx::getDbId`), remote address, parsed argument vector, the queue of
`setResponse` payloads, the close-after-response mark, and whether the
session still owns its socket (`borrowConn` clears it). -/
structure SessionState where
  id : Nat
  dbId : Nat
  remote : String
  args : List String
  respBuf : List String
  closeAfterRsp : Bool
  connOwned : Bool
deriving DecidableEq, Repr

/-- A monitor session as touched by `replyMonitors`: its id and its response
buffer. -/
structure MonitorSess where
  id : Nat
  respBuf : List String
deriving DecidableEq, Repr

/-- The three `ServerStat` sync counters bumped by the replication hijack. -/
structure SyncCounters where
  syncFull : Nat
  syncPartialOk : Nat
  syncPartialErr : Nat
deriving DecidableEq, Repr

/-- The externally visible calls of `processRequest` in program order:
the monitor fan-out append, the two replication-manager calls (each made on
the borrowed socket), the `runSessionCmd` hand-off, and the session's own
`setResponse`. -/
inductive PEvent where
  | monitorAppend (line : String)
  | supplyFullSync (a b c : String)
  | registerIncrSync (a b c d e : String)
  | runSessionCmd
  | sessionReply
deriving DecidableEq, Repr

/-- Modelled from the spec: `redis_port::errorReply` (outside `src/`), the
RESP error reply used on precheck failure. -/
def errorReply (s : String) : String :=
  "-ERR " ++ s ++ "\r\n"

/-- Modelled from the spec: `Command::fmtOK` (outside `src/`), the `+OK`
reply used by `quit`. -/
def fmtOK : String :=
  "+OK\r\n"

/-- Modelled from the spec: `Command::fmtErr` (outside `src/`), the formatted
error reply used when `runSessionCmd` fails. -/
def fmtErr (s : String) : String :=
  "-ERR " ++ s ++ "\r\n"

/-- The argument rendering of `replyMonitors`: each argument wrapped in
double quotes, a single space after every argument but the last. -/
def quoteArgs : List String → String
  | [] => ""
  | [a] => "\"" ++ a ++ "\""
  | a :: rest => "\"" ++ a ++ "\"" ++ " " ++ quoteArgs rest

/-- The monitor line built by `replyMonitors`: `+<sec>.<usec>` from the
microsecond wall clock `nowUs`, then `[<dbid> <remote>]`, then the quoted
arguments, then CRLF. -/
def monitorLine (nowUs : Nat) (sess : SessionState) : String :=
  "+" ++ toString (nowUs / 1000000) ++ "." ++ toString (nowUs % 1000000)
    ++ " [" ++ toString sess.dbId ++ " " ++ sess.remote ++ "] "
    ++ quoteArgs sess.args ++ "\r\n"

/-- `ServerEntry::replyMonitors`: nothing when the monitor list is empty,
otherwise append the line to every monitor's response buffer. -/
def replyMonitors (nowUs : Nat) (sess : SessionState)
    (monitors : List MonitorSess) : List MonitorSess × List PEvent :=
  if monitors.isEmpty then (monitors, [])
  else
    let info := monitorLine nowUs sess
    (monitors.map fun m => { m with respBuf := m.respBuf ++ [info] },
     [PEvent.monitorAppend info])

/-- The result of `processRequest`: the boolean returned to the session
framework, the updated session, monitor list and sync counters, and the
ordered list of externally visible calls. -/
structure ProcResult where
  ret : Bool
  sess : SessionState
  monitors : List MonitorSess
  stat : SyncCounters
  events : List PEvent
deriving DecidableEq, Repr

/-- `ServerEntry::processRequest`.  External outcomes are parameters:
`isRunning` the running flag, `nowUs` the wall clock read by
`replyMonitors`, `precheckRes` the result of `Command::precheck` (the
resolved command name, or a failure status), `incrSyncRet` the boolean
returned by `ReplManager::registerIncrSync`, and `runRes` the result of
`Command::runSessionCmd`. -/
def processRequest (isRunning : Bool) (nowUs : Nat)
    (precheckRes : Except Status String) (incrSyncRet : Bool)
    (runRes : Except Status String) (sess : SessionState)
    (monitors : List MonitorSess) (stat : SyncCounters) : ProcResult :=
  if isRunning = false then
    ⟨false, sess, monitors, stat, []⟩
  else
    match precheckRes with
    | Except.error st =>
      ⟨true, { sess with respBuf := sess.respBuf ++ [errorReply st.toStr] },
        monitors, stat, [PEvent.sessionReply]⟩
    | Except.ok cmdName =>
      let mres := replyMonitors nowUs sess monitors
      if cmdName = "fullsync" then
        ⟨false, { sess with connOwned := false }, mres.1,
          { stat with syncFull := stat.syncFull + 1 },
          mres.2 ++ [PEvent.supplyFullSync (sess.args.getD 1 "")
            (sess.args.getD 2 "") (sess.args.getD 3 "")]⟩
      else if cmdName = "incrsync" then
        let ev := PEvent.registerIncrSync (sess.args.getD 1 "")
          (sess.args.getD 2 "") (sess.args.getD 3 "")
          (sess.args.getD 4 "") (sess.args.getD 5 "")
        if incrSyncRet then
          ⟨false, { sess with connOwned := false }, mres.1,
            { stat with syncPartialOk := stat.syncPartialOk + 1 },
            mres.2 ++ [ev]⟩
        else
          ⟨false, { sess with connOwned := false }, mres.1,
            { stat with syncPartialErr := stat.syncPartialErr + 1 },
            mres.2 ++ [ev]⟩
      else if cmdName = "quit" then
        ⟨true,
          { sess with closeAfterRsp := true, respBuf := sess.respBuf ++ [fmtOK] },
          mres.1, stat, mres.2 ++ [PEvent.sessionReply]⟩
      else
        match runRes with
        | Except.error st =>
          ⟨true, { sess with respBuf := sess.respBuf ++ [fmtErr st.toStr] },
            mres.1, stat, mres.2 ++ [PEvent.runSessionCmd, PEvent.sessionReply]⟩
        | Except.ok v =>
          ⟨true, { sess with respBuf := sess.respBuf ++ [v] },
            mres.1, stat, mres.2 ++ [PEvent.runSessionCmd, PEvent.sessionReply]⟩

/-- C1: when the command passes precheck and resolves to `fullsync` (4 args)
or `incrsync` (6 args), `processRequest` takes the session's socket via
`borrowConn` and hands it to the replication manager: for `fullsync` it calls
`supplyFullSync` with arguments 1-3 and increments `syncFull` by one, for
`incrsync` it calls `registerIncrSync` with arguments 1-5 and increments
`syncPartialOk` when it returned true and `syncPartialErr` otherwise; in both
cases it returns `false` and never hands the command to `runSessionCmd`. -/
theorem processRequest_replication_hijack (nowUs : Nat) (incrSyncRet : Bool)
    (runRes : Except Status String) (sess : SessionState)
    (monitors : List MonitorSess) (stat : SyncCounters) :
    (sess.args.length = 4 →
      (processRequest true nowUs (Except.ok "fullsync") incrSyncRet runRes
          sess monitors stat).ret = false ∧
      (processRequest true nowUs (Except.ok "fullsync") incrSyncRet runRes
          sess monitors stat).sess.connOwned = false ∧
      (processRequest true nowUs (Except.ok "fullsync") incrSyncRet runRes
          sess monitors stat).stat =
        { stat with syncFull := stat.syncFull + 1 } ∧
      PEvent.supplyFullSync (sess.args.getD 1 "") (sess.args.getD 2 "")
          (sess.args.getD 3 "") ∈
        (processRequest true nowUs (Except.ok "fullsync") incrSyncRet runRes
          sess monitors stat).events ∧
      PEvent.runSessionCmd ∉
        (processRequest true nowUs (Except.ok "fullsync") incrSyncRet runRes
          sess monitors stat).events) ∧
    (sess.args.length = 6 →
      (processRequest true nowUs (Except.ok "incrsync") incrSyncRet runRes
          sess monitors stat).ret = false ∧
      (processRequest true nowUs (Except.ok "incrsync") incrSyncRet runRes
          sess monitors stat).sess.connOwned = false ∧
      PEvent.registerIncrSync (sess.args.getD 1 "") (sess.args.getD 2 "")
          (sess.args.getD 3 "") (sess.args.getD 4 "") (sess.args.getD 5 "") ∈
        (processRequest true nowUs (Except.ok "incrsync") incrSyncRet runRes
          sess monitors stat).events ∧
      (incrSyncRet = true →
        (processRequest true nowUs (Except.ok "incrsync") incrSyncRet runRes
            sess monitors stat).stat =
          { stat with syncPartialOk := stat.syncPartialOk + 1 }) ∧
      (incrSyncRet = false →
        (processRequest true nowUs (Except.ok "incrsync") incrSyncRet runRes
            sess monitors stat).stat =
          { stat with syncPartialErr := stat.syncPartialErr + 1 }) ∧
      PEvent.runSessionCmd ∉
        (processRequest true nowUs (Except.ok "incrsync") incrSyncRet runRes
          sess monitors stat).events) := by
  constructor
  · intro _
    cases monitors with
    | nil => simp [processRequest, replyMonitors]
    | cons m ms => simp [processRequest, replyMonitors]
  · intro _
    cases incrSyncRet <;>
      cases monitors with
      | nil => simp [processRequest, replyMonitors]
      | cons m ms => simp [processRequest, replyMonitors]

/-- A concrete replica session issuing `FULLSYNC 1 2 3`, used as input for
the dispatch counterexample and witnesses. -/
def fullsyncSession : SessionState :=
  ⟨7, 0, "127.0.0.1:51824", ["fullsync", "1", "2", "3"], [], false, true⟩

/-- Witness for C1: the concrete `fullsync` session is hijacked, the counter
moves from 5 to 6, and the request returns `false`. -/
theorem processRequest_replication_hijack_witness :
    (processRequest true 0 (Except.ok "fullsync") true
        (Except.ok "+PONG\r\n") fullsyncSession [] ⟨5, 0, 0⟩).ret = false ∧
    (processRequest true 0 (Except.ok "fullsync") true
        (Except.ok "+PONG\r\n") fullsyncSession [] ⟨5, 0, 0⟩).stat =
      ⟨6, 0, 0⟩ :=
  ⟨((processRequest_replication_hijack 0 true (Except.ok "+PONG\r\n")
      fullsyncSession [] ⟨5, 0, 0⟩).1 rfl).1,
   ((processRequest_replication_hijack 0 true (Except.ok "+PONG\r\n")
      fullsyncSession [] ⟨5, 0, 0⟩).1 rfl).2.2.1⟩

/-- C3, counterexample: the claim's final arm — "in every other case
`processRequest` invokes `runSessionCmd` and returns `true`" — fails at a
session whose command passed precheck and resolved to `fullsync` (a case
other than not-running, precheck failure, and `quit`): the dispatcher
returns `false` and never calls `runSessionCmd` there. -/
theorem processRequest_dispatch_claim_counterexample :
    ¬ ((processRequest true 0 (Except.ok "fullsync") true
          (Except.ok "+PONG\r\n") fullsyncSession [] ⟨0, 0, 0⟩).ret = true ∧
       PEvent.runSessionCmd ∈
         (processRequest true 0 (Except.ok "fullsync") true
           (Except.ok "+PONG\r\n") fullsyncSession [] ⟨0, 0, 0⟩).events) := by
  intro h
  have := h.1
  simp [processRequest, replyMonitors, fullsyncSession] at this

/-- C3, amended: `processRequest` returns `false` with nothing modified when
the server is not running; on precheck failure it appends an error reply and
returns `true`; on `quit` it marks close-after-response, replies `OK` and
returns `true`; in every other case except the replication hijack
(`fullsync` / `incrsync`, which return `false`) it invokes `runSessionCmd`
and returns `true`, appending the returned reply on success and a formatted
error reply on failure. -/
theorem processRequest_dispatch_spec (isRunning : Bool) (nowUs : Nat)
    (precheckRes : Except Status String) (incrSyncRet : Bool)
    (runRes : Except Status String) (sess : SessionState)
    (monitors : List MonitorSess) (stat : SyncCounters) :
    (isRunning = false →
      processRequest isRunning nowUs precheckRes incrSyncRet runRes sess
        monitors stat = ⟨false, sess, monitors, stat, []⟩) ∧
    (isRunning = true → ∀ st, precheckRes = Except.error st →
      processRequest isRunning nowUs precheckRes incrSyncRet runRes sess
        monitors stat =
        ⟨true, { sess with respBuf := sess.respBuf ++ [errorReply st.toStr] },
          monitors, stat, [PEvent.sessionReply]⟩) ∧
    (isRunning = true → precheckRes = Except.ok "quit" →
      (processRequest isRunning nowUs precheckRes incrSyncRet runRes sess
          monitors stat).ret = true ∧
      (processRequest isRunning nowUs precheckRes incrSyncRet runRes sess
          monitors stat).sess.closeAfterRsp = true ∧
      (processRequest isRunning nowUs precheckRes incrSyncRet runRes sess
          monitors stat).sess.respBuf = sess.respBuf ++ [fmtOK]) ∧
    (isRunning = true → ∀ cmd, precheckRes = Except.ok cmd →
      cmd ≠ "fullsync" → cmd ≠ "incrsync" → cmd ≠ "quit" →
      (processRequest isRunning nowUs precheckRes incrSyncRet runRes sess
          monitors stat).ret = true ∧
      PEvent.runSessionCmd ∈
        (processRequest isRunning nowUs precheckRes incrSyncRet runRes sess
          monitors stat).events ∧
      (∀ v, runRes = Except.ok v →
        (processRequest isRunning nowUs precheckRes incrSyncRet runRes sess
          monitors stat).sess.respBuf = sess.respBuf ++ [v]) ∧
      (∀ st, runRes = Except.error st →
        (processRequest isRunning nowUs precheckRes incrSyncRet runRes sess
          monitors stat).sess.respBuf =
          sess.respBuf ++ [fmtErr st.toStr])) := by
  refine ⟨fun hr => ?_, fun hr st hpre => ?_, fun hr hpre => ?_,
    fun hr cmd hpre h1 h2 h3 => ?_⟩
  · simp [processRequest, hr]
  · simp [processRequest, hr, hpre]
  · subst hr; subst hpre
    simp [processRequest]
  · subst hr; subst hpre
    cases runRes with
    | error st => simp [processRequest, h1, h2, h3]
    | ok v => simp [processRequest, h1, h2, h3]

/-- Witness for C3 (amended) at concrete inputs: a stopped server rejects the
request with `false`, and a plain `ping` goes through `runSessionCmd` and
returns `true` with the reply copied. -/
theorem processRequest_dispatch_spec_witness :
    processRequest false 0 (Except.ok "ping") true (Except.ok "+PONG\r\n")
      fullsyncSession [] ⟨0, 0, 0⟩ =
      ⟨false, fullsyncSession, [], ⟨0, 0, 0⟩, []⟩ ∧
    (processRequest true 0 (Except.ok "ping") true (Except.ok "+PONG\r\n")
        fullsyncSession [] ⟨0, 0, 0⟩).ret = true ∧
    (processRequest true 0 (Except.ok "ping") true (Except.ok "+PONG\r\n")
        fullsyncSession [] ⟨0, 0, 0⟩).sess.respBuf = [] ++ ["+PONG\r\n"] :=
  ⟨(processRequest_dispatch_spec false 0 (Except.ok "ping") true
      (Except.ok "+PONG\r\n") fullsyncSession [] ⟨0, 0, 0⟩).1 rfl,
   ((processRequest_dispatch_spec true 0 (Except.ok "ping") true
      (Except.ok "+PONG\r\n") fullsyncSession [] ⟨0, 0, 0⟩).2.2.2 rfl "ping"
      rfl (by decide) (by decide) (by decide)).1,
   ((processRequest_dispatch_spec true 0 (Except.ok "ping") true
      (Except.ok "+PONG\r\n") fullsyncSession [] ⟨0, 0, 0⟩).2.2.2 rfl "ping"
      rfl (by decide) (by decide) (by decide)).2.2.1 "+PONG\r\n" rfl⟩

/-- C7: exactly the requests that pass precheck are fanned out to monitors —
before the hijack, the reply or the `runSessionCmd` hand-off — with a single
line (built by `monitorLine` from the microsecond clock, the issuing
session's database id and remote address, and its quoted arguments) appended
to every monitor's response buffer; nothing is appended when the monitor
list is empty, when the server is not running, or when precheck fails. -/
theorem processRequest_monitor_fanout (isRunning : Bool) (nowUs : Nat)
    (precheckRes : Except Status String) (incrSyncRet : Bool)
    (runRes : Except Status String) (sess : SessionState)
    (monitors : List MonitorSess) (stat : SyncCounters) :
    (isRunning = false →
      (processRequest isRunning nowUs precheckRes incrSyncRet runRes sess
        monitors stat).monitors = monitors) ∧
    (∀ st, precheckRes = Except.error st →
      (processRequest isRunning nowUs precheckRes incrSyncRet runRes sess
        monitors stat).monitors = monitors) ∧
    (isRunning = true → ∀ cmd, precheckRes = Except.ok cmd →
      (monitors = [] →
        (processRequest isRunning nowUs precheckRes incrSyncRet runRes sess
          monitors stat).monitors = monitors ∧
        ∀ l, PEvent.monitorAppend l ∉
          (processRequest isRunning nowUs precheckRes incrSyncRet runRes sess
            monitors stat).events) ∧
      (monitors ≠ [] →
        (processRequest isRunning nowUs precheckRes incrSyncRet runRes sess
          monitors stat).monitors =
          monitors.map (fun m =>
            { m with respBuf := m.respBuf ++ [monitorLine nowUs sess] }) ∧
        ∃ rest,
          (processRequest isRunning nowUs precheckRes incrSyncRet runRes sess
            monitors stat).events =
            PEvent.monitorAppend (monitorLine nowUs sess) :: rest ∧
          ∀ l, PEvent.monitorAppend l ∉ rest)) := by
  refine ⟨fun hr => ?_, fun st hpre => ?_, fun hr cmd hpre => ⟨fun hm => ?_, fun hm => ?_⟩⟩
  · simp [processRequest, hr]
  · cases isRunning with
    | false => simp [processRequest]
    | true => simp [processRequest, hpre]
  · subst hr; subst hpre; subst hm
    by_cases h1 : cmd = "fullsync"
    · simp [processRequest, replyMonitors, h1]
    by_cases h2 : cmd = "incrsync"
    · cases incrSyncRet <;> simp [processRequest, replyMonitors, h1, h2]
    by_cases h3 : cmd = "quit"
    · simp [processRequest, replyMonitors, h1, h2, h3]
    cases runRes with
    | error st => simp [processRequest, replyMonitors, h1, h2, h3]
    | ok v => simp [processRequest, replyMonitors, h1, h2, h3]
  · subst hr; subst hpre
    have hne : monitors.isEmpty = false := by
      cases monitors with
      | nil => exact absurd rfl hm
      | cons m ms => rfl
    by_cases h1 : cmd = "fullsync"
    · refine ⟨by simp [processRequest, replyMonitors, h1, hne], ?_⟩
      refine ⟨[PEvent.supplyFullSync (sess.args.getD 1 "") (sess.args.getD 2 "")
        (sess.args.getD 3 "")], ?_, by simp⟩
      simp [processRequest, replyMonitors, h1, hne]
    by_cases h2 : cmd = "incrsync"
    · refine ⟨by cases incrSyncRet <;>
        simp [processRequest, replyMonitors, h1, h2, hne], ?_⟩
      refine ⟨[PEvent.registerIncrSync (sess.args.getD 1 "")
        (sess.args.getD 2 "") (sess.args.getD 3 "") (sess.args.getD 4 "")
        (sess.args.getD 5 "")], ?_, by simp⟩
      cases incrSyncRet <;> simp [processRequest, replyMonitors, h1, h2, hne]
    by_cases h3 : cmd = "quit"
    · refine ⟨by simp [processRequest, replyMonitors, h1, h2, h3, hne], ?_⟩
      refine ⟨[PEvent.sessionReply], ?_, by simp⟩
      simp [processRequest, replyMonitors, h1, h2, h3, hne]
    refine ⟨?_, ?_⟩
    · cases runRes with
      | error st => simp [processRequest, replyMonitors, h1, h2, h3, hne]
      | ok v => simp [processRequest, replyMonitors, h1, h2, h3, hne]
    · refine ⟨[PEvent.runSessionCmd, PEvent.sessionReply], ?_, by simp⟩
      cases runRes with
      | error st => simp [processRequest, replyMonitors, h1, h2, h3, hne]
      | ok v => simp [processRequest, replyMonitors, h1, h2, h3, hne]

/-- Witness for C7: with one monitor watching, the concrete `fullsync`
request appends exactly the formatted line to the monitor's buffer and the
fan-out event precedes every other event. -/
theorem processRequest_monitor_fanout_witness :
    (processRequest true 1234567 (Except.ok "fullsync") true
        (Except.ok "+PONG\r\n") fullsyncSession [⟨9, []⟩] ⟨0, 0, 0⟩).monitors =
      [⟨9, [monitorLine 1234567 fullsyncSession]⟩] ∧
    ∃ rest,
      (processRequest true 1234567 (Except.ok "fullsync") true
          (Except.ok "+PONG\r\n") fullsyncSession [⟨9, []⟩] ⟨0, 0, 0⟩).events =
        PEvent.monitorAppend (monitorLine 1234567 fullsyncSession) :: rest ∧
      ∀ l, PEvent.monitorAppend l ∉ rest := by
  have h := ((processRequest_monitor_fanout true 1234567
      (Except.ok "fullsync") true (Except.ok "+PONG\r\n") fullsyncSession
      [⟨9, []⟩] ⟨0, 0, 0⟩).2.2 rfl "fullsync" rfl).2 (by simp)
  exact ⟨h.1.trans (by simp), h.2⟩

/-- The session registry guarded by the coordinator mutex: `_sessions` as an
association of session ids to the session's `SessionCtx::getIsMonitor` flag
(the only per-session datum these operations read), and `_monitors` as the
ordered list of monitor session ids. -/
structure RegistryState where
  sessions : List (Nat × Bool)
  monitors : List Nat
deriving DecidableEq, Repr

/-- `ServerEntry::AddMonitor(sessId)`: return if some monitor already has
this id; return if the id is not a registered session; otherwise push the
session onto the monitor list. -/
def AddMonitor (st : RegistryState) (sessId : Nat) : RegistryState :=
  if sessId ∈ st.monitors then st
  else
    match st.sessions.lookup sessId with
    | none => st
    | some _ => { st with monitors := st.monitors ++ [sessId] }

/-- `ServerEntry::DelMonitorNoLock(connId)`: scan the monitor list and erase
the first entry with this id (the loop breaks after one erase). -/
def DelMonitorNoLock (st : RegistryState) (connId : Nat) : RegistryState :=
  { st with monitors := st.monitors.erase connId }

/-- `ServerEntry::endSession(connId)`: no-op when not running; `LOG(FATAL)`
(modelled as `none`) when the id is unknown; otherwise strip the session from
the monitor list when its context is flagged as monitor, then erase it from
the session map. -/
def endSession (isRunning : Bool) (st : RegistryState) (connId : Nat) :
    Option RegistryState :=
  if isRunning = false then some st
  else
    match st.sessions.lookup connId with
    | none => none
    | some isMon =>
      let st1 := if isMon then DelMonitorNoLock st connId else st
      some { st1 with
        sessions := st1.sessions.eraseP (fun p => p.1 == connId) }

/-- `ServerEntry::addSession(sess)`: refused (`false`) when not running;
`LOG(FATAL)` (modelled as `none`) on a duplicate id; otherwise the session is
inserted into the map.  `isMon` is the context's monitor flag at insertion
(false for a fresh connection). -/
def addSession (isRunning : Bool) (st : RegistryState) (sessId : Nat)
    (isMon : Bool) : Option (Bool × RegistryState) :=
  if isRunning = false then some (false, st)
  else
    match st.sessions.lookup sessId with
    | some _ => none
    | none => some (true,
        { st with sessions := st.sessions ++ [(sessId, isMon)] })

/-- The registry invariant of §3 and §4.3: the monitor list is duplicate-free,
every monitor id maps to a session whose context is flagged as monitor
(membership is mirrored by `SessionCtx::isMonitor`), and the session map's
keys are distinct. -/
def RegInv (st : RegistryState) : Prop :=
  st.monitors.Nodup ∧
  (∀ m ∈ st.monitors, st.sessions.lookup m = some true) ∧
  (st.sessions.map Prod.fst).Nodup

lemma lookup_eraseP_ne (l : List (Nat × Bool)) (a b : Nat) (h : a ≠ b) :
    (l.eraseP (fun p => p.1 == b)).lookup a = l.lookup a := by
  induction l with
  | nil => rfl
  | cons hd tl ih =>
    obtain ⟨k, v⟩ := hd
    by_cases hb : k = b
    · have hk : ((k, v).1 == b) = true := by simp [hb]
      have ha : (a == k) = false := by simp [hb, h]
      simp [List.eraseP_cons, hk, List.lookup, ha]
    · have hk : ((k, v).1 == b) = false := by simp [hb]
      by_cases ha : a = k
      · simp [List.eraseP_cons, hk, List.lookup, ha]
      · have ha' : (a == k) = false := by simp [ha]
        simp [List.eraseP_cons, hk, List.lookup, ha', ih]

lemma lookup_append_some (l1 l2 : List (Nat × Bool)) (a : Nat) (v : Bool)
    (h : l1.lookup a = some v) : (l1 ++ l2).lookup a = some v := by
  induction l1 with
  | nil => cases h
  | cons hd tl ih =>
    obtain ⟨k, w⟩ := hd
    by_cases ha : a = k
    · simpa [List.lookup, ha] using h
    · have ha' : (a == k) = false := by simp [ha]
      rw [List.lookup] at h
      rw [ha'] at h
      simpa [List.lookup, ha'] using ih h

lemma lookup_none_not_mem (l : List (Nat × Bool)) (a : Nat)
    (h : l.lookup a = none) : a ∉ l.map Prod.fst := by
  induction l with
  | nil => simp
  | cons hd tl ih =>
    obtain ⟨k, w⟩ := hd
    by_cases ha : a = k
    · rw [List.lookup] at h
      rw [show (a == k) = true by simp [ha]] at h
      cases h
    · have ha' : (a == k) = false := by simp [ha]
      rw [List.lookup] at h
      rw [ha'] at h
      simp [ha, ih h]

lemma regInv_addMonitor (st : RegistryState) (i : Nat)
    (hinv : RegInv st) (hflag : st.sessions.lookup i ≠ some false) :
    RegInv (AddMonitor st i) := by
  obtain ⟨hnd, hmem, hkeys⟩ := hinv
  by_cases hm : i ∈ st.monitors
  · simpa [AddMonitor, hm] using ⟨hnd, hmem, hkeys⟩
  · cases hlk : st.sessions.lookup i with
    | none => simpa [AddMonitor, hm, hlk] using ⟨hnd, hmem, hkeys⟩
    | some b =>
      have hb : b = true := by
        cases b with
        | false => exact absurd hlk hflag
        | true => rfl
      subst hb
      have h1 : AddMonitor st i = { st with monitors := st.monitors ++ [i] } := by
        simp [AddMonitor, hm, hlk]
      rw [h1]
      refine ⟨?_, ?_, hkeys⟩
      · rw [List.nodup_append]
        refine ⟨hnd, List.nodup_singleton i, ?_⟩
        intro a ha hai
        rw [List.mem_singleton] at hai
        subst hai
        exact hm ha
      · intro m hmm
        rcases List.mem_append.mp hmm with h | h
        · exact hmem m h
        · rw [List.mem_singleton] at h
          subst h
          exact hlk

lemma regInv_delMonitor (st : RegistryState) (i : Nat) (hinv : RegInv st) :
    RegInv (DelMonitorNoLock st i) := by
  obtain ⟨hnd, hmem, hkeys⟩ := hinv
  refine ⟨hnd.erase i, ?_, hkeys⟩
  intro m hmm
  exact hmem m (List.mem_of_mem_erase hmm)

lemma regInv_endSession (isRunning : Bool) (st : RegistryState) (i : Nat)
    (hinv : RegInv st) (st' : RegistryState)
    (h : endSession isRunning st i = some st') : RegInv st' := by
  obtain ⟨hnd, hmem, hkeys⟩ := hinv
  cases isRunning with
  | false =>
    simp [endSession] at h
    subst h; exact ⟨hnd, hmem, hkeys⟩
  | true =>
    cases hlk : st.sessions.lookup i with
    | none => simp [endSession, hlk] at h
    | some isMon =>
      simp [endSession, hlk] at h
      have hkeys' : ((st.sessions.eraseP (fun p => p.1 == i)).map Prod.fst).Nodup :=
        ((List.eraseP_sublist st.sessions).map Prod.fst).nodup hkeys
      cases isMon with
      | true =>
        simp [DelMonitorNoLock] at h
        subst h
        refine ⟨hnd.erase i, ?_, hkeys'⟩
        intro m hmm
        have hm' := (hnd.mem_erase_iff.mp hmm)
        rw [lookup_eraseP_ne _ _ _ hm'.1]
        exact hmem m hm'.2
      | false =>
        simp at h
        subst h
        refine ⟨hnd, ?_, hkeys'⟩
        intro m hmm
        have hne : m ≠ i := by
          intro he
          subst he
          rw [hmem m hmm] at hlk
          cases hlk
        rw [lookup_eraseP_ne _ _ _ hne]
        exact hmem m hmm

lemma regInv_addSession (isRunning : Bool) (st : RegistryState) (i : Nat)
    (f : Bool) (hinv : RegInv st) (b : Bool) (st' : RegistryState)
    (h : addSession isRunning st i f = some (b, st')) : RegInv st' := by
  obtain ⟨hnd, hmem, hkeys⟩ := hinv
  cases isRunning with
  | false =>
    simp [addSession] at h
    rw [← h.2]; exact ⟨hnd, hmem, hkeys⟩
  | true =>
    cases hlk : st.sessions.lookup i with
    | some w => simp [addSession, hlk] at h
    | none =>
      simp [addSession, hlk] at h
      rw [← h.2]
      refine ⟨hnd, ?_, ?_⟩
      · intro m hmm
        exact lookup_append_some _ _ _ _ (hmem m hmm)
      · simp only [List.map_append]
        rw [List.nodup_append]
        exact ⟨hkeys, by simp, by
          intro a ha hb
          simp at hb
          subst hb
          exact lookup_none_not_mem _ _ hlk ha⟩

/-- C6: the monitor list is duplicate-free and a subset of the session map,
and every registry operation preserves this: `AddMonitor` is idempotent, adds
nothing when the id is not a registered session, and otherwise appends the
session once; `DelMonitorNoLock` removes exactly the entry with that id (at
most one); `endSession` strips the monitor entry (its context being flagged)
before erasing the session; `addSession` keeps the invariant.  `AddMonitor`'s
preservation assumes the caller (the `MONITOR` command) has set the context's
monitor flag, the mirroring stated in §3. -/
theorem monitor_registry_invariant (st : RegistryState) (i : Nat)
    (isRunning f : Bool) :
    (AddMonitor (AddMonitor st i) i = AddMonitor st i) ∧
    (st.sessions.lookup i = none → AddMonitor st i = st) ∧
    (i ∉ st.monitors → (st.sessions.lookup i).isSome →
      (AddMonitor st i).monitors = st.monitors ++ [i]) ∧
    (RegInv st →
      ∀ j, j ∈ (DelMonitorNoLock st i).monitors ↔ j ∈ st.monitors ∧ j ≠ i) ∧
    (RegInv st → st.sessions.lookup i ≠ some false →
      RegInv (AddMonitor st i)) ∧
    (RegInv st → RegInv (DelMonitorNoLock st i)) ∧
    (RegInv st → ∀ st', endSession isRunning st i = some st' → RegInv st') ∧
    (RegInv st → ∀ b st', addSession isRunning st i f = some (b, st') →
      RegInv st') ∧
    (RegInv st → st.monitors.Nodup ∧
      ∀ m ∈ st.monitors, (st.sessions.lookup m).isSome) := by
  refine ⟨?_, fun hlk => ?_, fun hm hlk => ?_, fun hinv j => ?_,
    fun hinv hflag => regInv_addMonitor st i hinv hflag,
    fun hinv => regInv_delMonitor st i hinv,
    fun hinv st' h => regInv_endSession isRunning st i hinv st' h,
    fun hinv b st' h => regInv_addSession isRunning st i f hinv b st' h,
    fun hinv => ⟨hinv.1, fun m hmm => by rw [hinv.2.1 m hmm]; rfl⟩⟩
  · by_cases hm : i ∈ st.monitors
    · simp [AddMonitor, hm]
    · cases hlk : st.sessions.lookup i with
      | none => simp [AddMonitor, hm, hlk]
      | some b =>
        have h1 : AddMonitor st i = { st with monitors := st.monitors ++ [i] } := by
          simp [AddMonitor, hm, hlk]
        rw [h1]
        simp [AddMonitor, hlk]
  · by_cases hm : i ∈ st.monitors
    · simp [AddMonitor, hm]
    · simp [AddMonitor, hm, hlk]
  · cases hlk' : st.sessions.lookup i with
    | none => rw [hlk'] at hlk; simp at hlk
    | some b => simp [AddMonitor, hm, hlk']
  · simp only [DelMonitorNoLock]
    exact (hinv.1.mem_erase_iff).trans and_comm

/-- Witness for C6 at a concrete registry: `AddMonitor 5` on a map without
session 5 is a no-op, and session 2 (a flagged monitor) is removed from both
lists by `endSession`, preserving the invariant. -/
theorem monitor_registry_invariant_witness :
    AddMonitor ⟨[(1, true), (2, true)], [1, 2]⟩ 5 =
      ⟨[(1, true), (2, true)], [1, 2]⟩ ∧
    ∀ st', endSession true ⟨[(1, true), (2, true)], [1, 2]⟩ 2 = some st' →
      RegInv st' :=
  ⟨(monitor_registry_invariant ⟨[(1, true), (2, true)], [1, 2]⟩ 5 true
      false).2.1 rfl,
   fun st' h =>
    (monitor_registry_invariant ⟨[(1, true), (2, true)], [1, 2]⟩ 2 true
        false).2.2.2.2.2.2.1
      ⟨by decide, by decide, by decide⟩ st' h⟩

/-- The slow-log sink: everything appended to the `_slowLog` stream so far
and the `_slowlogId` counter. -/
structure SlowlogState where
  log : String
  slowlogId : Nat
deriving DecidableEq, Repr

/-- One slow-log record as streamed by `slowlogPushEntryIfNeeded`:
`#Id:`, `#Time:`, `#Query_time:` lines, the arguments (the loop writes a
space after every argument), and the `#argc:` line followed by a blank
line. -/
def slowlogRecord (id time duration : Nat) (args : List String) : String :=
  "#Id: " ++ toString id ++ "\n" ++
  "#Time: " ++ toString time ++ "\n" ++
  "#Query_time: " ++ toString duration ++ "\n" ++
  String.join (args.map fun a => a ++ " ") ++ "\n" ++
  "#argc: " ++ toString args.length ++ "\n\n"

/-- `ServerEntry::slowlogPushEntryIfNeeded(time, duration, args)`: when
`duration > cfg.slowlogLogSlowerThan`, stream the record carrying the
current `_slowlogId`, flush when the pre-increment id is a multiple of
`cfg.slowlogFlushInterval` (the check precedes the increment), then
increment `_slowlogId`.  The returned boolean reports whether the stream was
flushed. -/
def slowlogPushEntryIfNeeded (slowlogLogSlowerThan slowlogFlushInterval : Nat)
    (st : SlowlogState) (time duration : Nat) (args : List String) :
    SlowlogState × Bool :=
  if duration > slowlogLogSlowerThan then
    ({ log := st.log ++ slowlogRecord st.slowlogId time duration args,
       slowlogId := st.slowlogId + 1 },
     st.slowlogId % slowlogFlushInterval == 0)
  else (st, false)

/-- C5: `slowlogPushEntryIfNeeded` writes a record iff
`duration > cfg.slowlogLogSlowerThan`; the record carries the current
`_slowlogId`, which is incremented by one after the write (so it equals 1
after the first record); the stream is flushed on exactly those writes whose
pre-increment id is a multiple of `cfg.slowlogFlushInterval`. -/
theorem slowlogPushEntryIfNeeded_spec (thresh interval : Nat)
    (st : SlowlogState) (time duration : Nat) (args : List String) :
    (¬ duration > thresh →
      slowlogPushEntryIfNeeded thresh interval st time duration args =
        (st, false)) ∧
    (duration > thresh →
      (slowlogPushEntryIfNeeded thresh interval st time duration args).1.log =
        st.log ++ slowlogRecord st.slowlogId time duration args ∧
      (slowlogPushEntryIfNeeded thresh interval st time duration
        args).1.slowlogId = st.slowlogId + 1 ∧
      ((slowlogPushEntryIfNeeded thresh interval st time duration
        args).2 = true ↔ interval ∣ st.slowlogId)) ∧
    ((slowlogPushEntryIfNeeded thresh interval st time duration args).1.log =
        st.log ↔ ¬ duration > thresh) := by
  refine ⟨fun hle => ?_, fun hgt => ⟨?_, ?_, ?_⟩, ?_⟩
  · simp [slowlogPushEntryIfNeeded, hle]
  · simp [slowlogPushEntryIfNeeded, hgt]
  · simp [slowlogPushEntryIfNeeded, hgt]
  · simp only [slowlogPushEntryIfNeeded, if_pos hgt, beq_iff_eq]
    exact Nat.dvd_iff_mod_eq_zero.symm
  · constructor
    · intro hlog
      intro hgt
      have h1 := congrArg String.length hlog
      rw [show (slowlogPushEntryIfNeeded thresh interval st time duration
        args).1.log = st.log ++ slowlogRecord st.slowlogId time duration args
        by simp [slowlogPushEntryIfNeeded, hgt]] at h1
      rw [String.length_append] at h1
      have h2 : 0 < (slowlogRecord st.slowlogId time duration args).length := by
        unfold slowlogRecord
        simp only [String.length_append]
        have h5 : "#Id: ".length = 5 := by decide
        omega
      omega
    · intro hle
      simp [slowlogPushEntryIfNeeded, hle]

/-- Witness for C5: with threshold 1000 µs and flush interval 1, a 2000 µs
command starting from a fresh log writes the id-0 record, flushes, and
leaves `_slowlogId` at 1; a 500 µs command writes nothing. -/
theorem slowlogPushEntryIfNeeded_spec_witness :
    (slowlogPushEntryIfNeeded 1000 1 ⟨"", 0⟩ 5 2000
      ["set", "x", "1"]).1.slowlogId = 1 ∧
    (slowlogPushEntryIfNeeded 1000 1 ⟨"", 0⟩ 5 2000 ["set", "x", "1"]).2 = true ∧
    slowlogPushEntryIfNeeded 1000 1 ⟨"", 0⟩ 5 500 ["set", "x", "1"] =
      (⟨"", 0⟩, false) :=
  ⟨((slowlogPushEntryIfNeeded_spec 1000 1 ⟨"", 0⟩ 5 2000
      ["set", "x", "1"]).2.1 (by decide)).2.1,
   ((slowlogPushEntryIfNeeded_spec 1000 1 ⟨"", 0⟩ 5 2000
      ["set", "x", "1"]).2.1 (by decide)).2.2.mpr (Dvd.intro 0 rfl),
   (slowlogPushEntryIfNeeded_spec 1000 1 ⟨"", 0⟩ 5 500
      ["set", "x", "1"]).1 (by decide)⟩

end tendisplus
